import Mathlib

/-!
Shallow embedding of the VPa05 PDF maker (src/pdf_generator.py and
src/schet_generator.py): the dataset model, invoice-key discovery,
invoice filtering, template rendering via literal placeholder
substitution, the durable invoice counter, the dataset loaders and the
PDF backend selection policy, together with theorems settling the
specification claims about them.

Strings are modelled as lists of characters so that the Python string
primitives used by the source (substring test, lowercasing,
left-to-right non-overlapping replacement) can be given executable,
kernel-reducible definitions.
-/

/-- Boolean lexicographic strict order on character lists, modelling Python
string comparison used by sorted(). -/
def strLt : List Char → List Char → Bool
  | [], [] => false
  | [], _ :: _ => true
  | _ :: _, [] => false
  | a :: as, b :: bs => if a < b then true else if b < a then false else strLt as bs

/-- Models Python str.lower for the character ranges the repository uses:
ASCII letters and Cyrillic letters (А..Я and Ё). -/
def pyLower (c : Char) : Char :=
  if 'A' ≤ c ∧ c ≤ 'Z' then Char.ofNat (c.toNat + 32)
  else if 0x410 ≤ c.toNat ∧ c.toNat ≤ 0x42F then Char.ofNat (c.toNat + 32)
  else if c.toNat = 0x401 then Char.ofNat 0x451
  else c

/-- Lowercase every character, modelling Python s.lower(). -/
def lowerStr (s : List Char) : List Char := s.map pyLower

/-- Boolean substring test, modelling the Python expression p in s. -/
def infixB (p : List Char) : List Char → Bool
  | [] => p.isEmpty
  | c :: cs => p.isPrefixOf (c :: cs) || infixB p cs

/-- Keep-first deduplication with an accumulator of already seen strings,
modelling the effect of collecting strings into a Python set. -/
def pyDedupAux (seen : List (List Char)) : List (List Char) → List (List Char)
  | [] => []
  | a :: as => if seen.contains a then pyDedupAux seen as else a :: pyDedupAux (a :: seen) as

/-- Distinct elements of a list, first occurrences kept. -/
def pyDedup (l : List (List Char)) : List (List Char) := pyDedupAux [] l

/-- Insert an element into a sorted list, for insertion sort. -/
def insSorted (le : α → α → Bool) (a : α) : List α → List α
  | [] => [a]
  | b :: bs => if le a b then a :: b :: bs else b :: insSorted le a bs

/-- Insertion sort, modelling Python sorted(). -/
def pySort (le : α → α → Bool) : List α → List α
  | [] => []
  | a :: as => insSorted le a (pySort le as)

/-- Models Python sorted(list(set(strings))): deduplicate, then sort
lexicographically ascending. -/
def pySortedSet (l : List (List Char)) : List (List Char) :=
  pySort (fun s t => !(strLt t s)) (pyDedup l)

/-- Scalar cell value: a string or an integer, the two value shapes the
claims exercise. -/
inductive Val where
  | vstr : List Char → Val
  | vint : Int → Val
deriving DecidableEq

/-- Models Python str() on a cell value. -/
def pyStr : Val → List Char
  | .vstr s => s
  | .vint n => (toString n).data

/-- Models the Python == comparison between cell values as used by pandas
filtering: equal only when of the same type and equal there. -/
def pyEq : Val → Val → Bool
  | .vstr a, .vstr b => a == b
  | .vint a, .vint b => a == b
  | _, _ => false

/-- Order used when sorting cell values. Within one type it follows Python
sorted(); Python raises TypeError on mixed types, a case no claim
exercises, and mixed values are ordered numbers-first here. -/
def valLe (a b : Val) : Bool :=
  match a, b with
  | .vstr s, .vstr t => !(strLt t s)
  | .vint m, .vint n => m ≤ n
  | .vint _, .vstr _ => true
  | .vstr _, .vint _ => false

/-- Keep-first deduplication for cell values, modelling pandas unique(). -/
def pyDedupValAux (seen : List Val) : List Val → List Val
  | [] => []
  | a :: as => if seen.contains a then pyDedupValAux seen as else a :: pyDedupValAux (a :: seen) as

/-- Distinct cell values, first occurrences kept. -/
def pyDedupVal (l : List Val) : List Val := pyDedupValAux [] l

/-- A pandas DataFrame: named columns and rows of cell values. -/
structure DF where
  cols : List (List Char)
  rows : List (List Val)
deriving DecidableEq

/-- The empty DataFrame, the loader's graceful-failure result. -/
def DF.empty : DF := ⟨[], []⟩

/-- Cell of a row at a column position. -/
def cellAt (r : List Val) (i : Nat) : Val := r.getD i (Val.vstr [])

/-- Position of a column name in the column list. -/
def idxOfStr (k : List Char) : List (List Char) → Nat
  | [] => 0
  | c :: cs => if c == k then 0 else idxOfStr k cs + 1

/-- A JSON record: an ordered mapping from field name to value, modelling a
Python dict with insertion order. -/
abbrev Rec := List (List Char × Val)

/-- One element of a JSON list dataset: a dict record or a non-dict value
(the isinstance checks in the source distinguish the two). -/
inductive JItem where
  | jdict : Rec → JItem
  | jraw : Val → JItem
deriving DecidableEq

/-- Dataset as the pdf generator sees it: a DataFrame (CSV origin), a list
of records (JSON origin), or any other value falling through the
isinstance dispatch. -/
inductive PData where
  | frame : DF → PData
  | records : List JItem → PData
  | scalar : Val → PData
deriving DecidableEq

/-- Value stored in a record under a given key, modelling Python dict
lookup. -/
def lookupRec (r : Rec) (k : List Char) : Option Val :=
  (r.find? (fun p => p.1 == k)).map Prod.snd

/-! ## Invoice-key heuristic and placeholder machinery shared by the models -/

/-- The pdf generator's column-matching heuristic: the lowered name contains
the substring invoice or the substring id
(pdf_generator.py lines 167, 185, 195). -/
def colMatches (c : List Char) : Bool :=
  infixB "invoice".data (lowerStr c) || infixB "id".data (lowerStr c)

/-- First value in a dict record whose key matches the heuristic, modelling
the for key in item.keys() loop with its break
(pdf_generator.py lines 174-177, 194-198). -/
def firstMatchKV : Rec → Option Val
  | [] => none
  | (k, v) :: r => if colMatches k then some v else firstMatchKV r

/-- Strings contributed by a JSON list to the invoice set: one per dict
record that has a matching key, in iteration order
(pdf_generator.py lines 172-177). -/
def availRawList (data : List JItem) : List (List Char) :=
  data.filterMap (fun it =>
    match it with
    | .jdict r => (firstMatchKV r).map pyStr
    | .jraw _ => none)

/-- Reserved placeholder name invoice_id. -/
def phInvoiceId : List Char := "invoice_id".data

/-- Reserved placeholder name for the schet generator's invoice number. -/
def phNomer : List Char := "номер_счета".data

/-- Fuel-indexed scanner for Python str.replace: at each position, if the
pattern is a prefix of the remaining text, emit the replacement and skip
the pattern (the replacement is not rescanned); otherwise emit one
character and continue. Fuel bounds the number of steps; a fuel of the
text length always suffices since every step consumes at least one
character. -/
def pyGoF (p r : List Char) : Nat → List Char → List Char
  | _, [] => []
  | 0, s => s
  | f + 1, c :: cs =>
    if p.isPrefixOf (c :: cs) then r ++ pyGoF p r f ((c :: cs).drop p.length)
    else c :: pyGoF p r f cs

namespace PDFGenerator

/-- Models PDFGenerator.get_available_invoices (pdf_generator.py lines
161-179). For a DataFrame the first column whose lowered name contains
invoice or id is used for every row; for a JSON list each dict record
contributes the string of the value at its own first matching key; the
collected strings are deduplicated and sorted. -/
def get_available_invoices : PData → List (List Char)
  | .frame df =>
    match df.cols.filter colMatches with
    | [] => []
    | c :: _ => pySortedSet (df.rows.map (fun r => pyStr (cellAt r (idxOfStr c df.cols))))
  | .records data => pySortedSet (availRawList data)
  | .scalar _ => []

/-- Models PDFGenerator.filter_data_by_invoice (pdf_generator.py lines
181-202). For a DataFrame with a matching column, rows whose
string-coerced value there equals the invoice id are kept; with no
matching column the data is returned unchanged. For a JSON list, each
dict record is kept exactly when the value at its own first matching
key string-coerces to the invoice id; records without a matching key
and non-dict items are dropped. Any other data is returned unchanged. -/
def filter_data_by_invoice : PData → List Char → PData
  | .frame df, invoiceId =>
    match df.cols.filter colMatches with
    | [] => .frame df
    | c :: _ =>
      .frame ⟨df.cols, df.rows.filter (fun r => pyStr (cellAt r (idxOfStr c df.cols)) == invoiceId)⟩
  | .records data, invoiceId =>
    .records (data.filterMap (fun it =>
      match it with
      | .jdict r =>
        match firstMatchKV r with
        | some v => if pyStr v == invoiceId then some (.jdict r) else none
        | none => none
      | .jraw _ => none))
  | .scalar v, _ => .scalar v

/-- Outcome of a Python computation: a value, or an exception of a given
kind. -/
inductive PyErr where
  | unicodeDecodeError
  | otherError
deriving DecidableEq

/-- Models PDFGenerator.read_csv_file (pdf_generator.py lines 122-142).
The attempts list holds the outcome of pandas.read_csv for each
candidate encoding, the last argument the outcome of the final
errors-ignoring attempt. A successful attempt is returned; a
UnicodeDecodeError moves to the next encoding; any other exception is
caught by the outer handler, which returns an empty DataFrame. -/
def read_csv_file : List (Except PyErr DF) → Except PyErr DF → DF
  | [], fallback =>
    match fallback with
    | .ok df => df
    | .error _ => DF.empty
  | .ok df :: _, _ => df
  | .error .unicodeDecodeError :: rest, fallback => read_csv_file rest fallback
  | .error .otherError :: _, _ => DF.empty

/-- A parsed JSON value. -/
inductive JVal where
  | jobj : List (List Char × JVal) → JVal
  | jarr : List JVal → JVal
  | jstr : List Char → JVal
  | jnum : Int → JVal
  | jbool : Bool → JVal
  | jnull

/-- Models PDFGenerator.read_json_file (pdf_generator.py lines 144-159)
applied to the outcome of open plus json.load: on any error an empty
list is returned; a parsed list is returned as-is; any other parsed
value is wrapped in a one-element list. -/
def read_json_file : Except PyErr JVal → List JVal
  | .error _ => []
  | .ok (.jarr l) => l
  | .ok v => [v]

/-- The action generate_pdf dispatched to. -/
inductive PdfInvocation where
  | weasy : List Char → PdfInvocation
  | reportlab : DF → List Char → PdfInvocation
  | noBackend
deriving DecidableEq

/-- Models PDFGenerator.generate_pdf (pdf_generator.py lines 249-260):
with WeasyPrint available the rendered HTML is handed to it; otherwise
with ReportLab available the filtered data and invoice id are handed to
it; with neither, False is returned after printing guidance, and
nothing is invoked. The success flags model the boolean results of the
two backend helpers. -/
def generate_pdf (weasyprintAvailable reportlabAvailable weasySucceeds reportlabSucceeds : Bool)
    (htmlContent : List Char) (data : DF) (invoiceId : List Char) : Bool × PdfInvocation :=
  if weasyprintAvailable then (weasySucceeds, .weasy htmlContent)
  else if reportlabAvailable then (reportlabSucceeds, .reportlab data invoiceId)
  else (false, .noBackend)

end PDFGenerator

/-! ## The schet generator (src/schet_generator.py) -/

namespace SchetGenerator

/-- The schet generator's fallback column heuristic: the lowered name
contains the substring счет or the substring invoice
(schet_generator.py lines 144, 160). -/
def schetColMatches (c : List Char) : Bool :=
  infixB "счет".data (lowerStr c) || infixB "invoice".data (lowerStr c)

/-- Values of one column, deduplicated then sorted, modelling
sorted(data[c].unique()). -/
def sortedUniqueVals (df : DF) (c : List Char) : List Val :=
  pySort valLe (pyDedupVal (df.rows.map (fun r => cellAt r (idxOfStr c df.cols))))

/-- Models SchetGenerator.get_available_invoices (schet_generator.py lines
136-150): prefer the column номер_счета, then invoice_id, then the
first column matching the fallback heuristic; with none, no invoices. -/
def get_available_invoices (df : DF) : List Val :=
  if df.cols.contains phNomer then sortedUniqueVals df phNomer
  else if df.cols.contains phInvoiceId then sortedUniqueVals df phInvoiceId
  else
    match df.cols.filter schetColMatches with
    | [] => []
    | c :: _ => sortedUniqueVals df c

/-- Models SchetGenerator.filter_data_by_invoice (schet_generator.py lines
152-164): the same column preference chain; rows are kept when the raw
cell value equals the invoice number string under Python ==, with no
string coercion; with no matching column the data is returned
unchanged. -/
def filter_data_by_invoice (df : DF) (invoiceNumber : List Char) : DF :=
  if df.cols.contains phNomer then
    ⟨df.cols, df.rows.filter (fun r => pyEq (cellAt r (idxOfStr phNomer df.cols)) (.vstr invoiceNumber))⟩
  else if df.cols.contains phInvoiceId then
    ⟨df.cols, df.rows.filter (fun r => pyEq (cellAt r (idxOfStr phInvoiceId df.cols)) (.vstr invoiceNumber))⟩
  else
    match df.cols.filter schetColMatches with
    | [] => df
    | c :: _ =>
      ⟨df.cols, df.rows.filter (fun r => pyEq (cellAt r (idxOfStr c df.cols)) (.vstr invoiceNumber))⟩

/-- Derived definition: the key-column preference chain that
get_available_invoices and filter_data_by_invoice both inline
(schet_generator.py lines 138-148 and 154-162), extracted once so the
two functions can be proved consistent with each other. -/
def keyColumn (df : DF) : Option (List Char) :=
  if df.cols.contains phNomer then some phNomer
  else if df.cols.contains phInvoiceId then some phInvoiceId
  else (df.cols.filter schetColMatches).head?

/-- Models SchetGenerator.read_csv_file (schet_generator.py lines
114-134), textually identical to the pdf generator's CSV loader. -/
def read_csv_file : List (Except PDFGenerator.PyErr DF) → Except PDFGenerator.PyErr DF → DF :=
  PDFGenerator.read_csv_file

/-- The invoice number prefix. -/
def invoicePre : List Char := "СЧ-".data

/-- Models the Python format specifier 03d: decimal digits left-padded
with zeros to a total width of three, a minus sign counting toward the
width. -/
def pyFormat3 (n : Int) : List Char :=
  let ds := (toString n.natAbs).data
  if n < 0 then '-' :: (List.replicate (2 - ds.length) '0' ++ ds)
  else List.replicate (3 - ds.length) '0' ++ ds

/-- Models the happy path of SchetGenerator.get_next_invoice_number
(schet_generator.py lines 71-93). The store argument is the durable
counter file: none when absent, otherwise the stored counter value
(data.get supplies 0 for a file without the counter key). The call
reads the counter defaulting to 0, increments it, writes it back, and
returns the prefixed three-digit zero-padded number together with the
new store contents. -/
def get_next_invoice_number (store : Option Int) : List Char × Option Int :=
  let counter := (match store with | none => 0 | some c => c) + 1
  (invoicePre ++ pyFormat3 counter, some counter)

/-- Models SchetGenerator.generate_pdf (schet_generator.py lines 273-284),
the same backend selection policy as the pdf generator's. -/
def generate_pdf (weasyprintAvailable reportlabAvailable weasySucceeds reportlabSucceeds : Bool)
    (htmlContent : List Char) (data : DF) (invoiceNumber : List Char) : Bool × PDFGenerator.PdfInvocation :=
  if weasyprintAvailable then (weasySucceeds, .weasy htmlContent)
  else if reportlabAvailable then (reportlabSucceeds, .reportlab data invoiceNumber)
  else (false, .noBackend)

/-- One item dict passed to generate_new_invoice. The товар value is the
dict's entry (empty string when absent, as item.get supplies); the
quantity and unit price entries are numeric when present and are
omitted ones default to 1 and 0 via item.get. -/
structure SItem where
  tovar : Val := .vstr []
  kolvo : Option Int := none
  tsena : Option Int := none
deriving DecidableEq

/-- One synthesized row of a new invoice (schet_generator.py lines
620-629). -/
def invoiceRecord (num today customer : List Char) (it : SItem) : Rec :=
  [(phNomer, .vstr num),
   ("дата".data, .vstr today),
   ("клиент".data, .vstr customer),
   ("товар".data, it.tovar),
   ("количество".data, .vint (it.kolvo.getD 1)),
   ("цена_за_единицу".data, .vint (it.tsena.getD 0)),
   ("общая_сумма".data, .vint (it.kolvo.getD 1 * it.tsena.getD 0)),
   ("статус".data, .vstr "Ожидает оплаты".data)]

/-- Models the dataset-synthesis part of SchetGenerator.generate_new_invoice
(schet_generator.py lines 612-632): draw the next invoice number from
the counter, then build one record per item, all sharing that number,
the current date and the customer name. The subsequent render and PDF
steps are the pipeline modelled above. Returns the rows, the drawn
number and the new counter store. -/
def generate_new_invoice_data (store : Option Int) (today customer : List Char)
    (items : List SItem) : List Rec × List Char × Option Int :=
  let next := get_next_invoice_number store
  (items.map (invoiceRecord next.1 today customer), next.1, next.2)

end SchetGenerator

/-! ## Companion definitions written from the specification's words -/

/-- Follows the words of spec section 4.2 for CSV datasets: scan the field
names for the first one matching the heuristic, coerce every record's
value at that single field to a string, collect into a set, and sort. -/
def specResolveInvoicesFrame (df : DF) : List (List Char) :=
  match df.cols.find? colMatches with
  | none => []
  | some c => pySortedSet (df.rows.map (fun r => pyStr (cellAt r (idxOfStr c df.cols))))

/-- Follows the words of spec section 4.2 for JSON datasets: scan the keys
of a representative record (the first) for the first matching name,
select it as the key for the whole dataset, and collect every record's
string-coerced value at that one field (records lacking the field
contribute nothing). -/
def specResolveInvoicesRecords (data : List JItem) : List (List Char) :=
  match data with
  | [] => []
  | .jdict r :: _ =>
    (match (r.map Prod.fst).find? colMatches with
     | none => []
     | some k => pySortedSet (data.filterMap (fun it =>
         match it with
         | .jdict s => (lookupRec s k).map pyStr
         | .jraw _ => none)))
  | .jraw _ :: _ => []

/-! ## Structured templates for reasoning about placeholder substitution

A template is viewed as a concatenation of literal segments and
placeholder tokens. Literal segments are safe when they contain no two
adjacent left braces and do not start with a left brace; under these
conditions Python str.replace rewrites exactly the placeholder
occurrences. -/

/-- Canonical run of the replacement scanner with fuel equal to the text
length. -/
def runReplace (p r s : List Char) : List Char := pyGoF p r s.length s

/-- JSON dataset on which the per-record key choice of the pdf generator
diverges from a single global key: the second record's own first
matching key is invoice, while the representative (first) record's
first matching key is order_id. -/
def dExample : List JItem :=
  [.jdict [("order_id".data, .vstr "A".data)],
   .jdict [("invoice".data, .vstr "B".data), ("order_id".data, .vstr "A".data)]]

/-- A single JSON record with a matching key, for witnesses. -/
def recExample : Rec := [("invoice_id".data, Val.vstr "7".data)]

/-- JSON dataset whose only record has no matching key. -/
def dNoKey : List JItem := [.jdict [("name".data, .vstr "x".data)]]

/-- DataFrame with no matching column. -/
def dfNoKey : DF := ⟨["name".data], [[.vstr "x".data]]⟩

/-- DataFrame whose invoice_id column holds the integer 7, exercising the
schet filter's uncoerced comparison. -/
def dfIntId : DF := ⟨[phInvoiceId], [[.vint 7]]⟩

/-- DataFrame with a string invoice_id column and two rows. -/
def dfTwoRows : DF :=
  ⟨[phInvoiceId, "total".data],
   [[.vstr "INV-1".data, .vint 100], [.vstr "INV-2".data, .vint 5]]⟩

/-- One item dict for the new-invoice witness. -/
def itemExample : SchetGenerator.SItem :=
  ⟨Val.vstr "Товар".data, some 2, some 5⟩

/-- Date string used by the new-invoice witness. -/
def dateExample : List Char := "2026-10-12".data

/-- Customer name used by the new-invoice witness. -/
def custExample : List Char := "Клиент".data

/-- The record the new-invoice witness expects to be synthesized. -/
def recNewExample : Rec :=
  SchetGenerator.invoiceRecord ("СЧ-001".data) dateExample custExample itemExample

theorem runReplace_nil (p r : List Char) : runReplace p r [] = [] := rfl

/-- C5: with the counter store absent the first call returns СЧ-001 and
leaves the store holding 1; a second call in the same process returns
СЧ-002; in general a call with stored counter n returns the prefixed
zero-padded formatting of n plus 1 and writes back n plus 1. -/
theorem c5_next_invoice_number :
    SchetGenerator.get_next_invoice_number none = ("СЧ-001".data, some 1)
    ∧ SchetGenerator.get_next_invoice_number
        (SchetGenerator.get_next_invoice_number none).2 = ("СЧ-002".data, some 2)
    ∧ ∀ n : Int, SchetGenerator.get_next_invoice_number (some n)
        = (SchetGenerator.invoicePre ++ SchetGenerator.pyFormat3 (n + 1), some (n + 1)) :=
  ⟨by decide, by decide, fun _ => rfl⟩

/-! ## Claim C6 -/

/-- C6: both generators prefer WeasyPrint on the rendered HTML, fall back
to ReportLab on the filtered dataset, and with neither available return
False without invoking any backend. -/
theorem c6_generate_pdf_policy :
    ∀ (rlAvail ws rs : Bool) (html : List Char) (df : DF) (invId : List Char),
    PDFGenerator.generate_pdf true rlAvail ws rs html df invId = (ws, .weasy html)
    ∧ PDFGenerator.generate_pdf false true ws rs html df invId = (rs, .reportlab df invId)
    ∧ PDFGenerator.generate_pdf false false ws rs html df invId = (false, .noBackend)
    ∧ SchetGenerator.generate_pdf true rlAvail ws rs html df invId = (ws, .weasy html)
    ∧ SchetGenerator.generate_pdf false true ws rs html df invId = (rs, .reportlab df invId)
    ∧ SchetGenerator.generate_pdf false false ws rs html df invId = (false, .noBackend) :=
  fun _ _ _ _ _ _ => ⟨rfl, rfl, rfl, rfl, rfl, rfl⟩

/-! ## Claim C7 -/

/-- C7: the loaders never raise past their boundary. Reading JSON after any
error yields the empty list; reading CSV always yields either a
DataFrame produced by one of the attempted reads or the empty
DataFrame, and the schet generator's CSV loader coincides with the pdf
generator's. -/
theorem c7_loader_graceful :
    (∀ e, PDFGenerator.read_json_file (Except.error e) = [])
    ∧ (∀ (attempts : List (Except PDFGenerator.PyErr DF)) (fallback : Except PDFGenerator.PyErr DF),
        PDFGenerator.read_csv_file attempts fallback = DF.empty
        ∨ ∃ df, ((Except.ok df ∈ attempts) ∨ fallback = Except.ok df)
            ∧ PDFGenerator.read_csv_file attempts fallback = df)
    ∧ (∀ attempts fallback,
        SchetGenerator.read_csv_file attempts fallback
          = PDFGenerator.read_csv_file attempts fallback) := by
  refine ⟨fun e => rfl, ?_, fun _ _ => rfl⟩
  intro attempts
  induction attempts with
  | nil =>
    intro fallback
    cases fallback with
    | ok df => exact Or.inr ⟨df, Or.inr rfl, rfl⟩
    | error e => exact Or.inl rfl
  | cons a rest ih =>
    intro fallback
    cases a with
    | ok df => exact Or.inr ⟨df, Or.inl (List.mem_cons_self _ _), rfl⟩
    | error e =>
      cases e with
      | unicodeDecodeError =>
        rcases ih fallback with h | ⟨df, hsrc, heq⟩
        · exact Or.inl h
        · rcases hsrc with hmem | hfb
          · exact Or.inr ⟨df, Or.inl (List.mem_cons_of_mem _ hmem), heq⟩
          · exact Or.inr ⟨df, Or.inr hfb, heq⟩
      | otherError => exact Or.inl rfl

/-! ## Claim C8 -/

/-- C8: a JSON document parsing to a single object loads as the one-element
dataset holding exactly that object, and a document parsing to a list
loads as that list unchanged. -/
theorem c8_json_single_object :
    (∀ fields, PDFGenerator.read_json_file (Except.ok (PDFGenerator.JVal.jobj fields))
        = [PDFGenerator.JVal.jobj fields]
      ∧ (PDFGenerator.read_json_file (Except.ok (PDFGenerator.JVal.jobj fields))).length = 1)
    ∧ ∀ l, PDFGenerator.read_json_file (Except.ok (PDFGenerator.JVal.jarr l)) = l :=
  ⟨fun _ => ⟨rfl, rfl⟩, fun _ => rfl⟩

/-! ## Helper lemmas for key discovery, filtering and resolution -/

theorem filter_headQ_eq_findQ {α : Type} (p : α → Bool) :
    ∀ l : List α, (l.filter p).head? = l.find? p := by
  intro l
  induction l with
  | nil => rfl
  | cons c cs ih =>
    by_cases h : p c = true
    · simp [List.filter_cons, List.find?_cons, h]
    · simp only [Bool.not_eq_true] at h
      simp [List.filter_cons, List.find?_cons, h, ih]

theorem schet_filter_eq_keyColumn (df : DF) (invoiceNumber : List Char) :
    SchetGenerator.filter_data_by_invoice df invoiceNumber
      = match SchetGenerator.keyColumn df with
        | none => df
        | some c =>
          ⟨df.cols, df.rows.filter
            (fun r => pyEq (cellAt r (idxOfStr c df.cols)) (.vstr invoiceNumber))⟩ := by
  unfold SchetGenerator.filter_data_by_invoice SchetGenerator.keyColumn
  by_cases h1 : phNomer ∈ df.cols
  · simp [h1]
  · by_cases h2 : phInvoiceId ∈ df.cols
    · simp [h1, h2]
    · cases h3 : df.cols.filter SchetGenerator.schetColMatches with
      | nil =>
        have hf : df.cols.find? SchetGenerator.schetColMatches = none := by
          rw [← filter_headQ_eq_findQ, h3]; rfl
        simp [h1, h2, h3, hf]
      | cons c cs =>
        have hf : df.cols.find? SchetGenerator.schetColMatches = some c := by
          rw [← filter_headQ_eq_findQ, h3]; rfl
        simp [h1, h2, h3, hf]

theorem schet_avail_eq_keyColumn (df : DF) :
    SchetGenerator.get_available_invoices df
      = match SchetGenerator.keyColumn df with
        | none => []
        | some c => SchetGenerator.sortedUniqueVals df c := by
  unfold SchetGenerator.get_available_invoices SchetGenerator.keyColumn
  by_cases h1 : phNomer ∈ df.cols
  · simp [h1]
  · by_cases h2 : phInvoiceId ∈ df.cols
    · simp [h1, h2]
    · cases h3 : df.cols.filter SchetGenerator.schetColMatches with
      | nil =>
        have hf : df.cols.find? SchetGenerator.schetColMatches = none := by
          rw [← filter_headQ_eq_findQ, h3]; rfl
        simp [h1, h2, h3, hf]
      | cons c cs =>
        have hf : df.cols.find? SchetGenerator.schetColMatches = some c := by
          rw [← filter_headQ_eq_findQ, h3]; rfl
        simp [h1, h2, h3, hf]

theorem dedupAux_all_eq (a : List Char) :
    ∀ (l : List (List Char)) (seen : List (List Char)), (∀ x ∈ l, x = a) →
    (seen.contains a = true → pyDedupAux seen l = [])
    ∧ (seen.contains a = false → (pyDedupAux seen l = [] ∨ pyDedupAux seen l = [a])) := by
  intro l
  induction l with
  | nil => intro seen _; exact ⟨fun _ => rfl, fun _ => Or.inl rfl⟩
  | cons x xs ih =>
    intro seen h
    have hx : x = a := h x (List.mem_cons_self _ _)
    subst hx
    have htail : ∀ y ∈ xs, y = x := fun y hy => h y (List.mem_cons_of_mem _ hy)
    constructor
    · intro hseen
      simp only [pyDedupAux, hseen, if_true]
      exact (ih seen htail).1 hseen
    · intro hseen
      simp only [pyDedupAux, hseen, Bool.false_eq_true, if_false]
      have hmem : (x :: seen).contains x = true := by simp
      have := (ih (x :: seen) htail).1 hmem
      rw [this]
      exact Or.inr rfl

theorem pySortedSet_all_eq (a : List Char) (l : List (List Char)) (h : ∀ x ∈ l, x = a) :
    pySortedSet l = [] ∨ pySortedSet l = [a] := by
  have hc : ([] : List (List Char)).contains a = false := rfl
  rcases (dedupAux_all_eq a l [] h).2 hc with hd | hd
  · exact Or.inl (by simp [pySortedSet, pyDedup, hd, pySort])
  · exact Or.inr (by simp [pySortedSet, pyDedup, hd, pySort, insSorted])

theorem pySortedSet_singleton (x : List Char) : pySortedSet [x] = [x] := rfl

/-! ## Claim C1 -/

/-- C1, counterexample: on the JSON dataset dExample the code's invoice
discovery returns both A and B, while the specified single global key
choice (the first matching key of the representative record, order_id)
yields only A — the pdf generator chooses the key per record, not once
per dataset. -/
theorem c1_counterexample :
    PDFGenerator.get_available_invoices (.records dExample) = ["A".data, "B".data]
    ∧ specResolveInvoicesRecords dExample = ["A".data]
    ∧ (["A".data, "B".data] : List (List Char)) ≠ ["A".data] :=
  ⟨by decide, by decide, by decide⟩

/-- C1, amended: for CSV DataFrames the discovery is a single global
choice — the pdf generator's resolver agrees with the spec-worded
global resolver, and the schet generator's resolver and filter both
reduce to one shared key-column preference chain. For JSON lists the
choice is per record: each dict record contributes through its own
first matching key, resolution distributes over concatenation, and
filtering acts on each record independently. -/
theorem c1_amended_key_discovery :
    (∀ df : DF, PDFGenerator.get_available_invoices (.frame df) = specResolveInvoicesFrame df)
    ∧ (∀ xs ys : List JItem,
        PDFGenerator.get_available_invoices (.records (xs ++ ys))
          = pySortedSet (availRawList xs ++ availRawList ys))
    ∧ (∀ (xs ys lx ly : List JItem) (invId : List Char),
        PDFGenerator.filter_data_by_invoice (.records xs) invId = .records lx →
        PDFGenerator.filter_data_by_invoice (.records ys) invId = .records ly →
        PDFGenerator.filter_data_by_invoice (.records (xs ++ ys)) invId = .records (lx ++ ly))
    ∧ (∀ (r : Rec) (v : Val), firstMatchKV r = some v →
        PDFGenerator.get_available_invoices (.records [JItem.jdict r]) = [pyStr v])
    ∧ (∀ df : DF,
        SchetGenerator.get_available_invoices df
          = (match SchetGenerator.keyColumn df with
             | none => []
             | some c => SchetGenerator.sortedUniqueVals df c)
        ∧ ∀ invId, SchetGenerator.filter_data_by_invoice df invId
          = (match SchetGenerator.keyColumn df with
             | none => df
             | some c =>
               ⟨df.cols, df.rows.filter
                 (fun r => pyEq (cellAt r (idxOfStr c df.cols)) (.vstr invId))⟩)) := by
  refine ⟨?_, ?_, ?_, ?_, ?_⟩
  · intro df
    simp only [PDFGenerator.get_available_invoices, specResolveInvoicesFrame]
    cases hc : df.cols.filter colMatches with
    | nil =>
      have hf : df.cols.find? colMatches = none := by
        rw [← filter_headQ_eq_findQ, hc]; rfl
      simp [hc, hf]
    | cons c cs =>
      have hf : df.cols.find? colMatches = some c := by
        rw [← filter_headQ_eq_findQ, hc]; rfl
      simp [hc, hf]
  · intro xs ys
    simp only [PDFGenerator.get_available_invoices]
    rw [show availRawList (xs ++ ys) = availRawList xs ++ availRawList ys from
      List.filterMap_append xs ys _]
  · intro xs ys lx ly invId hx hy
    simp only [PDFGenerator.filter_data_by_invoice] at hx hy ⊢
    have ex := PData.records.inj hx
    have ey := PData.records.inj hy
    rw [List.filterMap_append, ex, ey]
  · intro r v h
    simp only [PDFGenerator.get_available_invoices]
    have e : availRawList [JItem.jdict r] = [pyStr v] := by
      simp [availRawList, List.filterMap_cons, h]
    rw [e, pySortedSet_singleton]
  · intro df
    exact ⟨schet_avail_eq_keyColumn df, fun invId => schet_filter_eq_keyColumn df invId⟩

/-- C1, witness: the amended theorem's per-record conjunct applied to the
one-record dataset recExample. -/
theorem c1_amended_key_discovery_witness :
    firstMatchKV recExample = some (Val.vstr "7".data)
    ∧ PDFGenerator.get_available_invoices (.records [JItem.jdict recExample]) = ["7".data] :=
  ⟨by decide,
   c1_amended_key_discovery.2.2.2.1 recExample (Val.vstr "7".data) (by decide)⟩

/-! ## Claim C2 -/

/-- C2, counterexample: the JSON dataset dNoKey has no matching field name
anywhere, yet the pdf generator's filter does not return it unchanged —
it returns the empty list, dropping the record. -/
theorem c2_counterexample :
    PDFGenerator.filter_data_by_invoice (.records dNoKey) ("1".data) = .records []
    ∧ PData.records dNoKey ≠ PData.records [] :=
  ⟨by decide, by decide⟩

/-- C2, amended: with no discoverable key field the filter is a no-op for
DataFrames in both generators, but for JSON lists in which no record
has a matching key the pdf generator's filter returns the empty list,
dropping every record. -/
theorem c2_amended_no_key_filter :
    (∀ (df : DF) (invId : List Char), df.cols.filter colMatches = [] →
        PDFGenerator.filter_data_by_invoice (.frame df) invId = .frame df)
    ∧ (∀ (df : DF) (invId : List Char), SchetGenerator.keyColumn df = none →
        SchetGenerator.filter_data_by_invoice df invId = df)
    ∧ (∀ (data : List JItem) (invId : List Char),
        (∀ r, JItem.jdict r ∈ data → firstMatchKV r = none) →
        PDFGenerator.filter_data_by_invoice (.records data) invId = .records []) := by
  refine ⟨?_, ?_, ?_⟩
  · intro df invId h
    unfold PDFGenerator.filter_data_by_invoice
    simp [h]
  · intro df invId h
    rw [schet_filter_eq_keyColumn, h]
  · intro data invId h
    simp only [PDFGenerator.filter_data_by_invoice]
    congr 1
    induction data with
    | nil => rfl
    | cons it rest ih =>
      have htail := ih (fun r2 hm => h r2 (List.mem_cons_of_mem _ hm))
      cases it with
      | jdict r =>
        have hr : firstMatchKV r = none := h r (List.mem_cons_self _ _)
        simpa [List.filterMap_cons, hr] using htail
      | jraw v =>
        simpa [List.filterMap_cons] using htail

/-- C2, witness: the amended theorem applied to the keyless DataFrame
dfNoKey and the keyless JSON dataset dNoKey. -/
theorem c2_amended_no_key_filter_witness :
    dfNoKey.cols.filter colMatches = []
    ∧ PDFGenerator.filter_data_by_invoice (.frame dfNoKey) ("1".data) = .frame dfNoKey
    ∧ PDFGenerator.filter_data_by_invoice (.records dNoKey) ("2".data) = .records [] :=
  ⟨by decide,
   c2_amended_no_key_filter.1 dfNoKey ("1".data) (by decide),
   c2_amended_no_key_filter.2.2 dNoKey ("2".data) (by
     intro r hm
     simp only [dNoKey, List.mem_singleton] at hm
     have h2 := JItem.jdict.inj hm
     subst h2
     decide)⟩

/-! ## Claim C4 -/

/-- C4, counterexample: the schet generator's filter compares raw values
without string coercion. On the DataFrame dfIntId, whose invoice_id
column holds the integer 7, filtering by the string 7 keeps nothing,
although the row's value string-coerces exactly to that invoice id. -/
theorem c4_counterexample :
    (SchetGenerator.filter_data_by_invoice dfIntId ("7".data)).rows = []
    ∧ pyStr (cellAt [Val.vint 7] 0) = "7".data
    ∧ dfIntId.rows = [[Val.vint 7]] :=
  ⟨by decide, by decide, by decide⟩

/-- C4, amended: the pdf generator keeps exactly the records whose
string-coerced value at the discovered key equals the invoice id — for
DataFrames at the first matching column, for JSON lists at each
record's own first matching key — while the schet generator keeps
exactly the rows whose raw value at its key column equals the invoice
id string under Python equality, with no string coercion. -/
theorem c4_amended_filter_exact :
    (∀ (df d2 : DF) (invId c : List Char) (rest : List (List Char)),
        df.cols.filter colMatches = c :: rest →
        PDFGenerator.filter_data_by_invoice (.frame df) invId = .frame d2 →
        ∀ row, row ∈ d2.rows ↔ row ∈ df.rows ∧ pyStr (cellAt row (idxOfStr c df.cols)) = invId)
    ∧ (∀ (data l : List JItem) (invId : List Char),
        PDFGenerator.filter_data_by_invoice (.records data) invId = .records l →
        ∀ it, it ∈ l ↔ it ∈ data ∧ ∃ r v, it = JItem.jdict r
          ∧ firstMatchKV r = some v ∧ pyStr v = invId)
    ∧ (∀ (df : DF) (invId c : List Char), SchetGenerator.keyColumn df = some c →
        ∀ row, row ∈ (SchetGenerator.filter_data_by_invoice df invId).rows
          ↔ row ∈ df.rows ∧ pyEq (cellAt row (idxOfStr c df.cols)) (Val.vstr invId) = true) := by
  refine ⟨?_, ?_, ?_⟩
  · intro df d2 invId c rest hc hf row
    simp only [PDFGenerator.filter_data_by_invoice, hc] at hf
    have e := PData.frame.inj hf
    rw [← e]
    simp only [List.mem_filter]
    constructor
    · rintro ⟨hm, hb⟩
      exact ⟨hm, by simpa using hb⟩
    · rintro ⟨hm, hb⟩
      exact ⟨hm, by simpa using hb⟩
  · intro data l invId hf it
    simp only [PDFGenerator.filter_data_by_invoice] at hf
    have e := PData.records.inj hf
    subst e
    constructor
    · intro hm
      obtain ⟨a, ha, hfa⟩ := List.mem_filterMap.mp hm
      cases a with
      | jraw v => simp at hfa
      | jdict r =>
        have hfa2 : (match firstMatchKV r with
            | some v => if (pyStr v == invId) = true then some (JItem.jdict r) else none
            | none => none) = some it := hfa
        cases hk : firstMatchKV r with
        | none => rw [hk] at hfa2; simp at hfa2
        | some v =>
          rw [hk] at hfa2
          by_cases hb : (pyStr v == invId) = true
          · simp only [hb, if_true, Option.some.injEq] at hfa2
            subst hfa2
            exact ⟨ha, r, v, rfl, hk, by simpa using hb⟩
          · simp only [Bool.not_eq_true] at hb
            simp [hb] at hfa2
    · rintro ⟨hm, r, v, rfl, hk, hpv⟩
      apply List.mem_filterMap.mpr
      refine ⟨JItem.jdict r, hm, ?_⟩
      simp [hk, hpv]
  · intro df invId c hkey row
    rw [schet_filter_eq_keyColumn, hkey]
    simp only [List.mem_filter]

/-- C4, witness: the amended theorem's DataFrame conjunct applied to
dfTwoRows, whose filtered result keeps exactly the INV-1 row. -/
theorem c4_amended_filter_exact_witness :
    dfTwoRows.cols.filter colMatches = [phInvoiceId]
    ∧ ([Val.vstr "INV-1".data, Val.vint 100] ∈ dfTwoRows.rows
       ∧ pyStr (cellAt [Val.vstr "INV-1".data, Val.vint 100]
           (idxOfStr phInvoiceId dfTwoRows.cols)) = "INV-1".data) :=
  ⟨by decide,
   (c4_amended_filter_exact.1 dfTwoRows
     ⟨dfTwoRows.cols, [[Val.vstr "INV-1".data, Val.vint 100]]⟩
     ("INV-1".data) phInvoiceId [] (by decide) (by decide)
     [Val.vstr "INV-1".data, Val.vint 100]).mp (by decide)⟩

/-! ## Claim C9 -/

/-- C9: filtering by an invoice id and then resolving the invoices of the
result yields either exactly that id or nothing, for DataFrames and for
JSON lists — never a different id. -/
theorem c9_filter_resolve_roundtrip :
    (∀ (df : DF) (invId : List Char),
      PDFGenerator.get_available_invoices
          (PDFGenerator.filter_data_by_invoice (.frame df) invId) = [invId]
      ∨ PDFGenerator.get_available_invoices
          (PDFGenerator.filter_data_by_invoice (.frame df) invId) = [])
    ∧ (∀ (data : List JItem) (invId : List Char),
      PDFGenerator.get_available_invoices
          (PDFGenerator.filter_data_by_invoice (.records data) invId) = [invId]
      ∨ PDFGenerator.get_available_invoices
          (PDFGenerator.filter_data_by_invoice (.records data) invId) = []) := by
  constructor
  · intro df invId
    cases hc : df.cols.filter colMatches with
    | nil =>
      have hfil : PDFGenerator.filter_data_by_invoice (.frame df) invId = .frame df := by
        simp only [PDFGenerator.filter_data_by_invoice, hc]
      rw [hfil]
      right
      simp only [PDFGenerator.get_available_invoices, hc]
    | cons c cs =>
      have hfil : PDFGenerator.filter_data_by_invoice (.frame df) invId
          = .frame ⟨df.cols, df.rows.filter
              (fun r => pyStr (cellAt r (idxOfStr c df.cols)) == invId)⟩ := by
        simp only [PDFGenerator.filter_data_by_invoice, hc]
      rw [hfil]
      simp only [PDFGenerator.get_available_invoices, hc]
      have hall : ∀ x ∈ (df.rows.filter
          (fun r => pyStr (cellAt r (idxOfStr c df.cols)) == invId)).map
            (fun r => pyStr (cellAt r (idxOfStr c df.cols))), x = invId := by
        intro x hx
        obtain ⟨row, hrow, rfl⟩ := List.mem_map.mp hx
        have hb := (List.mem_filter.mp hrow).2
        simpa using hb
      exact Or.symm (pySortedSet_all_eq invId _ hall)
  · intro data invId
    have hfil : PDFGenerator.filter_data_by_invoice (.records data) invId
        = .records (data.filterMap (fun it =>
            match it with
            | JItem.jdict r =>
              match firstMatchKV r with
              | some v => if pyStr v == invId then some (JItem.jdict r) else none
              | none => none
            | JItem.jraw _ => none)) := rfl
    rw [hfil]
    simp only [PDFGenerator.get_available_invoices]
    have hall : ∀ x ∈ availRawList (data.filterMap (fun it =>
        match it with
        | JItem.jdict r =>
          match firstMatchKV r with
          | some v => if pyStr v == invId then some (JItem.jdict r) else none
          | none => none
        | JItem.jraw _ => none)), x = invId := by
      intro x hx
      obtain ⟨it, hit, hg⟩ := List.mem_filterMap.mp hx
      obtain ⟨a, _, hfa⟩ := List.mem_filterMap.mp hit
      cases a with
      | jraw v => simp at hfa
      | jdict r =>
        have hfa2 : (match firstMatchKV r with
            | some v => if (pyStr v == invId) = true then some (JItem.jdict r) else none
            | none => none) = some it := hfa
        cases hk : firstMatchKV r with
        | none => rw [hk] at hfa2; simp at hfa2
        | some v =>
          rw [hk] at hfa2
          by_cases hb : (pyStr v == invId) = true
          · simp only [hb, if_true, Option.some.injEq] at hfa2
            subst hfa2
            have hg2 : (firstMatchKV r).map pyStr = some x := hg
            rw [hk] at hg2
            have hg3 : pyStr v = x := by simpa using hg2
            rw [← hg3]
            simpa using hb
          · simp only [Bool.not_eq_true] at hb
            simp [hb] at hfa2
    exact Or.symm (pySortedSet_all_eq invId _ hall)

/-! ## Claim C10 -/

/-- C10: every record synthesized by generate_new_invoice carries the one
freshly drawn invoice number, the given date and customer, the status
Ожидает оплаты, and a line total equal to the item's quantity times its
unit price, with quantity defaulting to 1 and unit price to 0. -/
theorem c10_generate_new_invoice :
    ∀ (store : Option Int) (today customer : List Char)
      (items : List SchetGenerator.SItem) (r : Rec),
    r ∈ (SchetGenerator.generate_new_invoice_data store today customer items).1 →
    lookupRec r phNomer
        = some (Val.vstr (SchetGenerator.generate_new_invoice_data store today customer items).2.1)
    ∧ lookupRec r ("дата".data) = some (.vstr today)
    ∧ lookupRec r ("клиент".data) = some (.vstr customer)
    ∧ lookupRec r ("статус".data) = some (.vstr "Ожидает оплаты".data)
    ∧ ∃ q p : Int, lookupRec r ("количество".data) = some (.vint q)
        ∧ lookupRec r ("цена_за_единицу".data) = some (.vint p)
        ∧ lookupRec r ("общая_сумма".data) = some (.vint (q * p))
        ∧ ∃ it ∈ items, q = it.kolvo.getD 1 ∧ p = it.tsena.getD 0 := by
  intro store today customer items r hm
  simp only [SchetGenerator.generate_new_invoice_data] at hm ⊢
  obtain ⟨it, hit, rfl⟩ := List.mem_map.mp hm
  exact ⟨rfl, rfl, rfl, rfl, it.kolvo.getD 1, it.tsena.getD 0, rfl, rfl, rfl,
    it, hit, rfl, rfl⟩

/-- C10, witness: the theorem applied to a one-item invoice drawn from an
absent counter store. -/
theorem c10_generate_new_invoice_witness :
    recNewExample ∈ (SchetGenerator.generate_new_invoice_data none dateExample
        custExample [itemExample]).1
    ∧ lookupRec recNewExample ("статус".data) = some (Val.vstr "Ожидает оплаты".data) :=
  ⟨by decide,
   (c10_generate_new_invoice none dateExample custExample [itemExample]
     recNewExample (by decide)).2.2.2.1⟩
